import Mathlib

/-!
Verification of the device-model detection and capability-resolution logic of
the ha_creality_ws repository, together with the capability-gated parts of its
printer test/simulator server (tools/creality_printer_test_server.py).

The integration's classifier (ModelDetection in
custom_components/ha_creality_ws/utils.py) is not part of the sources given
here; only its canonical test table (tools/tests/test_model_detection.py) and
the simulator are.  The classifier is therefore modelled from the
specification, faithful to its resolution algorithm: a primary pass matching
the model string exactly against an enumerated vendor table, a secondary pass
matching fixed hardware codes as substrings of modelVersion, and a
conservative all-false fallback.  The simulator definitions are translated
directly from tools/creality_printer_test_server.py.
-/

/-- Boolean classification flags of ModelDetection (spec section 3). -/
structure Flags where
  is_k1_family : Bool
  is_k1c : Bool
  is_k2_family : Bool
  is_k2_base : Bool
  is_k2_pro : Bool
  is_k2_plus : Bool
  is_ender_v3_family : Bool
  is_ender_v3 : Bool
  is_ender_v3_ke : Bool
  is_ender_v3_plus : Bool
  is_creality_hi : Bool
  has_box_sensor : Bool
  has_box_control : Bool
  has_light : Bool
deriving DecidableEq

/-- Result of classification: the flag set plus the resolved display name. -/
structure ModelDetection where
  flags : Flags
  resolvedModel : String
deriving DecidableEq

/-- The all-false flag set used by the fallback branch. -/
def noFlags : Flags :=
  ⟨false, false, false, false, false, false, false,
   false, false, false, false, false, false, false⟩

/-- leadMatch code cs: the character list code occurs at the head of cs. -/
def leadMatch : List Char → List Char → Bool
  | [], _ => true
  | _ :: _, [] => false
  | a :: as, b :: bs => a == b && leadMatch as bs

/-- hasCodeSub code cs: the character list code occurs somewhere inside cs. -/
def hasCodeSub (code : List Char) : List Char → Bool
  | [] => code.isEmpty
  | c :: cs => leadMatch code (c :: cs) || hasCodeSub code cs

/-- containsCode mv code: the hardware code occurs as a substring of the
modelVersion string (substring containment subsumes the prefix case). -/
def containsCode (mv code : String) : Bool :=
  hasCodeSub code.toList mv.toList

/-- Modelled from the spec: the primary-pass table of ModelDetection
(custom_components/ha_creality_ws/utils.py is not among the given sources).
Spec section 4.1 step 1 enumerates the known vendor model strings; the
capability sets are the ones asserted by the canonical test table and by the
simulator's MODEL_CONFIGS, which the simulator documents as aligned with the
integration's ModelDetection mapping.  The resolved name of a primary match
is the vendor string itself.  is_k1_family is true for every K1-family entry,
including K1C (spec: is_k1_family is true whenever is_k1c is true). -/
def primaryTable : List (String × Flags × String) :=
  [ ("CR-K1",
      { noFlags with is_k1_family := true,
                     has_box_sensor := true, has_light := true }, "CR-K1"),
    ("K1C",
      { noFlags with is_k1_family := true, is_k1c := true,
                     has_box_sensor := true, has_light := true }, "K1C"),
    ("CR-K1 Max",
      { noFlags with is_k1_family := true,
                     has_box_sensor := true, has_light := true }, "CR-K1 Max"),
    ("K1 SE",
      { noFlags with is_k1_family := true }, "K1 SE") ]

/-- Modelled from the spec: the secondary-pass table of ModelDetection
(custom_components/ha_creality_ws/utils.py is not among the given sources).
Spec section 4.1 step 2 enumerates the hardware codes, in this order, with
their family/sub-flags and capabilities; the resolved display names are the
ones required by the canonical test table in
tools/tests/test_model_detection.py. -/
def secondaryTable : List (String × Flags × String) :=
  [ ("F021",
      { noFlags with is_k2_family := true, is_k2_base := true,
                     has_box_sensor := true, has_box_control := true,
                     has_light := true }, "K2"),
    ("F012",
      { noFlags with is_k2_family := true, is_k2_pro := true,
                     has_box_sensor := true, has_box_control := true,
                     has_light := true }, "K2 Pro"),
    ("F008",
      { noFlags with is_k2_family := true, is_k2_plus := true,
                     has_box_sensor := true, has_box_control := true,
                     has_light := true }, "K2 Plus"),
    ("F018",
      { noFlags with is_creality_hi := true, has_light := true },
      "Creality Hi"),
    ("F005",
      { noFlags with is_ender_v3_family := true, is_ender_v3_ke := true },
      "Ender 3 V3 KE"),
    ("F002",
      { noFlags with is_ender_v3_family := true, is_ender_v3_plus := true },
      "Ender 3 V3 Plus"),
    ("F001",
      { noFlags with is_ender_v3_family := true, is_ender_v3 := true },
      "Ender 3 V3") ]

/-- Modelled from the spec: the two-pass resolution algorithm of
ModelDetection (spec section 4.1): an exact model-string match is
authoritative and short-circuits the secondary pass; otherwise the first
hardware code contained in modelVersion decides; otherwise the conservative
fallback with all flags false and a generic placeholder name. -/
def classify (model modelVersion : String) : ModelDetection :=
  match primaryTable.find? (fun e => e.1 == model) with
  | some e => ⟨e.2.1, e.2.2⟩
  | none =>
    match secondaryTable.find? (fun e => containsCode modelVersion e.1) with
    | some e => ⟨e.2.1, e.2.2⟩
    | none => ⟨noFlags, "Unknown"⟩

/-- Modelled from the spec: a telemetry snapshot is a mapping with at least
the string fields model and modelVersion; all other fields are ignored by
this subsystem (spec section 3). -/
structure TelemetrySnapshot where
  model : String
  modelVersion : String
  otherFields : List (String × String)

/-- Classification of a whole snapshot reads only the two fields of
interest. -/
def classifySnap (s : TelemetrySnapshot) : ModelDetection :=
  classify s.model s.modelVersion

/-- Number of true values in a list of booleans. -/
def countTrue (l : List Bool) : Nat := (l.filter id).length

/-- Number of true K2 sub-flags. -/
def k2SubCount (f : Flags) : Nat :=
  countTrue [f.is_k2_base, f.is_k2_pro, f.is_k2_plus]

/-- Number of true Ender V3 sub-flags. -/
def enderSubCount (f : Flags) : Nat :=
  countTrue [f.is_ender_v3, f.is_ender_v3_ke, f.is_ender_v3_plus]

/-- Family flags are consistent with sub-flags: a true sub-flag forces its
family umbrella flag (equivalently, by contraposition, a false family flag
forces all of its sub-flags false), and is_k1c forces is_k1_family. -/
def familyConsistent (f : Flags) : Bool :=
  (!(f.is_k2_base || f.is_k2_pro || f.is_k2_plus) || f.is_k2_family)
  && (!(f.is_ender_v3 || f.is_ender_v3_ke || f.is_ender_v3_plus)
      || f.is_ender_v3_family)
  && (!f.is_k1c || f.is_k1_family)

/-- Every flag set classify can ever return: the fallback plus the flag sets
of the two tables. -/
def allOutcomes : List Flags :=
  noFlags ::
    (primaryTable.map (fun e => e.2.1) ++ secondaryTable.map (fun e => e.2.1))

/-!
Simulator embedding, translated from tools/creality_printer_test_server.py.
-/

/-- One entry of MODEL_CONFIGS: device-reported model name and capabilities
(lines 65-83 of tools/creality_printer_test_server.py). -/
structure ModelConfig where
  name : String
  box_sensor : Bool
  box_control : Bool
  light : Bool
  camera : String
deriving DecidableEq

/-- The k2plus configuration, which is also the fallback used when a model
key is missing from MODEL_CONFIGS. -/
def k2plusCfg : ModelConfig :=
  ⟨"F008", true, true, true, "webrtc"⟩

/-- MODEL_CONFIGS of the simulator, as an association list in the order the
Python dict literal declares its keys. -/
def MODEL_CONFIGS : List (String × ModelConfig) :=
  [ ("k1c", ⟨"K1C", true, false, true, "mjpeg"⟩),
    ("k1", ⟨"CR-K1", true, false, true, "mjpeg"⟩),
    ("k1max", ⟨"CR-K1 Max", true, false, true, "mjpeg"⟩),
    ("k1se", ⟨"K1 SE", false, false, false, "mjpeg"⟩),
    ("k2", ⟨"F021", true, false, true, "webrtc"⟩),
    ("k2pro", ⟨"F012", true, true, true, "webrtc"⟩),
    ("k2plus", k2plusCfg),
    ("e3v3", ⟨"F001", false, false, false, "mjpeg"⟩),
    ("e3v3ke", ⟨"F005", false, false, false, "mjpeg"⟩),
    ("e3v3plus", ⟨"F002", false, false, false, "mjpeg"⟩),
    ("crealityhi", ⟨"F018", false, false, true, "mjpeg"⟩) ]

/-- MODEL_CONFIGS.get(model_key, MODEL_CONFIGS["k2plus"]), the config
resolution used by PrinterState.__init__ (line 286) and main_async
(line 1052). -/
def resolveCfg (model_key : String) : ModelConfig :=
  ((MODEL_CONFIGS.find? (fun e => e.1 == model_key)).map (fun e => e.2)).getD
    k2plusCfg

/-- cam_mode = model_cfg["camera"] in main_async (line 1053). -/
def camMode (model : String) : String :=
  (resolveCfg model).camera

/-- SimOptions dataclass (lines 266-275). -/
structure SimOptions where
  total_print_seconds : Int
  total_layers : Int
  total_objects : Nat
  self_test_seconds : Int
  max_x : Float
  max_y : Float
  max_z : Float

/-- The SimOptions defaults (also the argparse defaults of main). -/
def defaultSimOptions : SimOptions :=
  ⟨600, 120, 6, 5, 235.0, 235.0, 250.0⟩

/-- The targets dictionary passed to PrinterState by main_async
(lines 1068-1072); its three keys are nozzle, bed and box. -/
structure Targets where
  nozzle : Float
  bed : Float
  box : Float

/-- The argparse default temperature targets (nozzle 250, bed 70, box 50). -/
def defaultTargets : Targets :=
  ⟨250.0, 70.0, 50.0⟩

/-- JSON-like values appearing in the telemetry snapshot dictionary. -/
inductive JVal where
  | str (v : String)
  | num (v : Float)
  | int (v : Int)
  | arr (v : List JVal)
  | obj (v : List (String × JVal))

/-- The mutable state of PrinterState (fields assigned in __init__,
lines 279-413).  Python float fields are Float, Python int fields are Int,
and the CFS box literals are kept as JSON-like values. -/
structure PState where
  cfg : ModelConfig
  model_key : String
  simulate_print : Bool
  sim : SimOptions
  t0 : Float
  paused : Bool
  light_on : Bool
  state_code : Int
  device_state : Int
  progress : Int
  print_start_ts : Option Float
  self_test_end : Float
  nozzle_temp_target : Float
  bed_temp_target : Float
  box_temp_target : Float
  nozzle_temp : Float
  bed_temp : Float
  box_temp : Float
  material_status : Int
  pos_x : Float
  pos_y : Float
  pos_z : Float
  print_file : String
  objects_total : Nat
  objects_list : List JVal
  cur_object_idx : Int
  layer_total : Int
  cur_layer : Int
  used_material_length : Float
  real_time_flow : Float
  feedrate_pct : Float
  flowrate_pct : Float
  case_fan : Int
  model_fan : Int
  side_fan : Int
  cfs_boxes : List JVal
  error_code : Int

/-- The CFS box literal list assigned to self._cfs_boxes (lines 338-405). -/
def initCfsBoxes : List JVal :=
  [ JVal.obj
      [ ("id", JVal.int 0), ("state", JVal.int 0), ("type", JVal.int 1),
        ("materials", JVal.arr
          [ JVal.obj
              [ ("id", JVal.int 0), ("vendor", JVal.str "Generic"),
                ("type", JVal.str "PLA"), ("color", JVal.str "#01b04ae"),
                ("name", JVal.str "Generic PLA"),
                ("minTemp", JVal.int 190), ("maxTemp", JVal.int 240),
                ("selected", JVal.int 0), ("percent", JVal.int 100),
                ("state", JVal.int 1) ] ]) ],
    JVal.obj
      [ ("id", JVal.int 1), ("state", JVal.int 1), ("type", JVal.int 0),
        ("materials", JVal.arr
          [ JVal.obj
              [ ("id", JVal.int 0), ("vendor", JVal.str "Creality"),
                ("type", JVal.str "PLA"), ("name", JVal.str "Hyper PLA"),
                ("color", JVal.str "#0000000"), ("percent", JVal.int 95),
                ("state", JVal.int 1), ("selected", JVal.int 1) ],
            JVal.obj
              [ ("id", JVal.int 1), ("vendor", JVal.str "Creality"),
                ("type", JVal.str "PLA"), ("name", JVal.str "Hyper PLA"),
                ("color", JVal.str "#0ffffff"), ("percent", JVal.int 80),
                ("state", JVal.int 1), ("selected", JVal.int 0) ],
            JVal.obj
              [ ("id", JVal.int 2), ("vendor", JVal.str "Creality"),
                ("type", JVal.str "PLA"), ("name", JVal.str "Hyper PLA"),
                ("color", JVal.str "#0ffa800"), ("percent", JVal.int 100),
                ("state", JVal.int 1), ("selected", JVal.int 0) ],
            JVal.obj
              [ ("id", JVal.int 3), ("vendor", JVal.str "Creality"),
                ("type", JVal.str "PLA"), ("name", JVal.str "Hyper PLA"),
                ("color", JVal.str "#0ff97e1"), ("percent", JVal.int 75),
                ("state", JVal.int 1), ("selected", JVal.int 0) ] ]) ] ]

/-- PrinterState.__init__ (lines 279-413).  The two time.monotonic() calls
are passed in explicitly: t0 for the one stored in self._t0 and now for the
re-reads at the end of the constructor. -/
def mkPrinterState (model_key : String) (simulate_print : Bool)
    (sim : SimOptions) (targets : Targets) (t0 now : Float) : PState :=
  let cfg := resolveCfg model_key
  let self_test_end :=
    t0 + (if simulate_print then Float.ofInt sim.self_test_seconds else 0.0)
  let state_code : Int :=
    if simulate_print then (if now < self_test_end then 2 else 1) else 0
  { cfg := cfg
    model_key := model_key
    simulate_print := simulate_print
    sim := sim
    t0 := t0
    paused := false
    light_on := false
    state_code := state_code
    device_state := 0
    progress := 0
    print_start_ts :=
      if simulate_print && state_code == 1 then some now else none
    self_test_end := self_test_end
    nozzle_temp_target := targets.nozzle
    bed_temp_target := targets.bed
    box_temp_target := if cfg.box_control then targets.box else 0.0
    nozzle_temp := 25.0
    bed_temp := 25.0
    box_temp := 26.0
    material_status := 0
    pos_x := 0.0
    pos_y := 0.0
    pos_z := 0.0
    print_file := "demo.gcode"
    objects_total := sim.total_objects
    objects_list :=
      (List.range sim.total_objects).map (fun i =>
        JVal.obj [ ("name", JVal.str ("obj" ++ toString (i + 1))),
                   ("index", JVal.int (Int.ofNat (i + 1))) ])
    cur_object_idx := 0
    layer_total := sim.total_layers
    cur_layer := 0
    used_material_length := 0.0
    real_time_flow := 0.0
    feedrate_pct := 100.0
    flowrate_pct := 100.0
    case_fan := 0
    model_fan := 0
    side_fan := 0
    cfs_boxes := initCfsBoxes
    error_code := 0 }

/-- PrinterState.set_light (lines 433-435): only flips the light when the
model configuration has the light capability. -/
def set_light (s : PState) (b : Bool) : PState :=
  if s.cfg.light then { s with light_on := b } else s

/-- PrinterState.set_box_temp (lines 437-439): only stores the target when
the model configuration has box control. -/
def set_box_temp (s : PState) (temp : Float) : PState :=
  if s.cfg.box_control then { s with box_temp_target := temp } else s

/-- Python round(x, 2). -/
def round2 (x : Float) : Float := (x * 100.0).round / 100.0

/-- Python round(x, 1). -/
def round1 (x : Float) : Float := (x * 10.0).round / 10.0

/-- Python round(x, 3). -/
def round3 (x : Float) : Float := (x * 1000.0).round / 1000.0

/-- The curPosition f-string; the two-decimal formatting of each coordinate
is abstracted by toString, which does not affect any stated property. -/
def curPositionStr (x y z : Float) : String :=
  "X:" ++ toString x ++ " Y:" ++ toString y ++ " Z:" ++ toString z

/-- PrinterState.snapshot (lines 550-615): the telemetry dictionary as an
ordered key-value list, with Python dict update modelled as appending the
new keys (none of the conditionally added keys occurs in the base dict).
The time.monotonic() read is the explicit parameter now. -/
def snapshot (s : PState) (now : Float) : List (String × JVal) :=
  let base : List (String × JVal) :=
    [ ("model", JVal.str s.cfg.name),
      ("hostname", JVal.str ("creality-" ++ s.model_key)),
      ("modelVersion", JVal.str
        ("Printer HW Ver: " ++ s.cfg.name ++ "; Printer SW Ver: test-1")),
      ("nozzleTemp", JVal.num (round2 s.nozzle_temp)),
      ("bedTemp0", JVal.num (round2 s.bed_temp)),
      ("targetNozzleTemp", JVal.num (round1 s.nozzle_temp_target)),
      ("targetBedTemp0", JVal.num (round1 s.bed_temp_target)),
      ("maxNozzleTemp", JVal.num 300.0),
      ("maxBedTemp", JVal.num 120.0),
      ("curPosition", JVal.str (curPositionStr s.pos_x s.pos_y s.pos_z)),
      ("deviceState", JVal.int s.device_state),
      ("state", JVal.int s.state_code),
      ("err", JVal.obj [("errcode", JVal.int s.error_code)]),
      ("objects_list", JVal.arr s.objects_list),
      ("curObjectIndex", JVal.int s.cur_object_idx),
      ("printFileName", JVal.str
        (if s.simulate_print then s.print_file else "")),
      ("printProgress", JVal.int (if s.simulate_print then s.progress else 0)),
      ("dProgress", JVal.int (if s.simulate_print then s.progress else 0)),
      ("printJobTime", JVal.num
        (if s.simulate_print then
          (max 0.0 (now - (s.print_start_ts.getD s.t0))).floor
         else 0.0)),
      ("printLeftTime", JVal.num
        (if s.simulate_print then
          max 0.0 (Float.ofInt s.sim.total_print_seconds -
            (now - (s.print_start_ts.getD s.t0)).floor)
         else 0.0)),
      ("usedMaterialLength", JVal.num (round1 s.used_material_length)),
      ("realTimeFlow", JVal.num (round3 s.real_time_flow)),
      ("layer", JVal.int s.cur_layer),
      ("TotalLayer", JVal.int s.layer_total),
      ("feedratePct", JVal.num s.feedrate_pct),
      ("flowratePct", JVal.num s.flowrate_pct),
      ("curFeedratePct", JVal.num s.feedrate_pct),
      ("curFlowratePct", JVal.num s.flowrate_pct),
      ("caseFan", JVal.int s.case_fan),
      ("modelFan", JVal.int s.model_fan),
      ("sideFan", JVal.int s.side_fan),
      ("materialStatus", JVal.int s.material_status) ]
  let withBox :=
    if s.cfg.box_sensor then
      base ++ [ ("boxTemp", JVal.num (round2 s.box_temp)),
                ("maxBoxTemp", JVal.num 80.0) ]
        ++ (if s.cfg.box_control then
              [("targetBoxTemp", JVal.num (round1 s.box_temp_target))]
            else [])
    else base
  if s.cfg.light then
    withBox ++ [("lightSw", JVal.int (if s.light_on then 1 else 0))]
  else withBox

/-- The ordered key list of a telemetry snapshot. -/
def snapshotKeys (s : PState) (now : Float) : List String :=
  (snapshot s now).map Prod.fst

/-- The keys of the unconditional part of the snapshot dictionary. -/
def baseSnapshotKeys : List String :=
  [ "model", "hostname", "modelVersion", "nozzleTemp", "bedTemp0",
    "targetNozzleTemp", "targetBedTemp0", "maxNozzleTemp", "maxBedTemp",
    "curPosition", "deviceState", "state", "err", "objects_list",
    "curObjectIndex", "printFileName", "printProgress", "dProgress",
    "printJobTime", "printLeftTime", "usedMaterialLength", "realTimeFlow",
    "layer", "TotalLayer", "feedratePct", "flowratePct", "curFeedratePct",
    "curFlowratePct", "caseFan", "modelFan", "sideFan", "materialStatus" ]

/-- A concrete Ender 3 V3 simulator state: its configuration has no light
and no box control. -/
def enderState : PState :=
  mkPrinterState "e3v3" false defaultSimOptions defaultTargets 0.0 0.0

/-- A concrete state built from a model key absent from MODEL_CONFIGS. -/
def fallbackState : PState :=
  mkPrinterState "no-such-model" false defaultSimOptions defaultTargets 0.0 0.0

/-- The K1C row of the canonical test table read the way claim C1 reads it:
the asserted flags (is_k1c, has_box_sensor, has_light) with every flag the
row does not assert, including is_k1_family, set to false. -/
def k1cRowClaimed : ModelDetection :=
  ⟨{ noFlags with is_k1c := true, has_box_sensor := true,
                  has_light := true }, "K1C"⟩

/-- The F012 row of the canonical test table read the way claim C1 reads it:
the asserted flags with unasserted has_light set to false. -/
def f012RowClaimed : ModelDetection :=
  ⟨{ noFlags with is_k2_family := true, is_k2_pro := true,
                  has_box_sensor := true, has_box_control := true },
   "K2 Pro"⟩

/-- The F021 row of the canonical test table read the way claim C1 reads it:
the asserted flags with unasserted has_light set to false. -/
def f021RowClaimed : ModelDetection :=
  ⟨{ noFlags with is_k2_family := true, is_k2_base := true,
                  has_box_sensor := true, has_box_control := true }, "K2"⟩

/-- The F008 row of the canonical test table read the way claim C1 reads it:
the asserted flags with unasserted has_light set to false. -/
def f008RowClaimed : ModelDetection :=
  ⟨{ noFlags with is_k2_family := true, is_k2_plus := true,
                  has_box_sensor := true, has_box_control := true },
   "K2 Plus"⟩

/-!
Theorems.
-/

/-- Every flag set classify returns is the fallback or one of the table
entries. -/
theorem classify_flags_mem (m v : String) :
    (classify m v).flags ∈ allOutcomes := by
  unfold classify
  cases hp : primaryTable.find? (fun e => e.1 == m) with
  | some e =>
    have he : e ∈ primaryTable := List.mem_of_find?_eq_some hp
    exact List.mem_cons_of_mem _
      (List.mem_append_left _ (List.mem_map_of_mem _ he))
  | none =>
    cases hs : secondaryTable.find? (fun e => containsCode v e.1) with
    | some e =>
      have he : e ∈ secondaryTable := List.mem_of_find?_eq_some hs
      exact List.mem_cons_of_mem _
        (List.mem_append_right _ (List.mem_map_of_mem _ he))
    | none => exact List.mem_cons_self _ _

/-- C1 counterexample: the claim that every flag not explicitly asserted by
a row of the canonical test table is false fails on four rows.  The K1C row
does not assert is_k1_family, yet classification makes it true (the spec
itself requires is_k1_family whenever is_k1c); the three K2 rows (F012,
F021, F008) do not assert has_light, yet the spec's code table gives every
K2 code the light capability. -/
theorem classify_table_unasserted_false_cx :
    classify "K1C" "" ≠ k1cRowClaimed
  ∧ (classify "K1C" "").flags.is_k1_family = true
  ∧ classify "" "F012" ≠ f012RowClaimed
  ∧ (classify "" "F012").flags.has_light = true
  ∧ classify "" "F021" ≠ f021RowClaimed
  ∧ (classify "" "F021").flags.has_light = true
  ∧ classify "" "F008" ≠ f008RowClaimed
  ∧ (classify "" "F008").flags.has_light = true := by
  decide

/-- C1 (amended): for each of the nine (model, modelVersion) pairs of the
canonical test table, classify produces exactly the asserted flags and the
asserted resolved name, and every unasserted flag is false, except that
is_k1_family is additionally true in the K1C row and has_light is
additionally true in the three K2 rows (F012, F021, F008). -/
theorem classify_table_nine_cases :
    classify "CR-K1" "" =
      ⟨{ noFlags with is_k1_family := true, has_box_sensor := true,
                      has_light := true }, "CR-K1"⟩
  ∧ classify "K1C" "" =
      ⟨{ noFlags with is_k1_family := true, is_k1c := true,
                      has_box_sensor := true, has_light := true }, "K1C"⟩
  ∧ classify "" "F012" =
      ⟨{ noFlags with is_k2_family := true, is_k2_pro := true,
                      has_box_sensor := true, has_box_control := true,
                      has_light := true }, "K2 Pro"⟩
  ∧ classify "" "F021" =
      ⟨{ noFlags with is_k2_family := true, is_k2_base := true,
                      has_box_sensor := true, has_box_control := true,
                      has_light := true }, "K2"⟩
  ∧ classify "" "F008" =
      ⟨{ noFlags with is_k2_family := true, is_k2_plus := true,
                      has_box_sensor := true, has_box_control := true,
                      has_light := true }, "K2 Plus"⟩
  ∧ classify "" "F018" =
      ⟨{ noFlags with is_creality_hi := true, has_light := true },
       "Creality Hi"⟩
  ∧ classify "" "F005" =
      ⟨{ noFlags with is_ender_v3_family := true, is_ender_v3_ke := true },
       "Ender 3 V3 KE"⟩
  ∧ classify "" "F002" =
      ⟨{ noFlags with is_ender_v3_family := true, is_ender_v3_plus := true },
       "Ender 3 V3 Plus"⟩
  ∧ classify "" "F001" =
      ⟨{ noFlags with is_ender_v3_family := true, is_ender_v3 := true },
       "Ender 3 V3"⟩ := by
  decide

/-- C2: classify is total by construction, and on any input matched by
neither pass it returns the conservative fallback: all flags false and the
generic non-empty placeholder name. -/
theorem classify_fallback_conservative (m v : String)
    (hp : primaryTable.find? (fun e => e.1 == m) = none)
    (hs : secondaryTable.find? (fun e => containsCode v e.1) = none) :
    classify m v = ⟨noFlags, "Unknown"⟩ := by
  unfold classify
  rw [hp, hs]

/-- C2 witness: the empty model and empty modelVersion match neither pass
and fall through to the safe default. -/
theorem classify_fallback_conservative_witness :
    classify "" "" = ⟨noFlags, "Unknown"⟩ :=
  classify_fallback_conservative "" "" (by decide) (by decide)

/-- C3: for every input, at most one K2 sub-flag is true and at most one
Ender V3 sub-flag is true. -/
theorem classify_mutually_exclusive (m v : String) :
    k2SubCount (classify m v).flags ≤ 1
  ∧ enderSubCount (classify m v).flags ≤ 1 :=
  have h : ∀ f ∈ allOutcomes, k2SubCount f ≤ 1 ∧ enderSubCount f ≤ 1 := by
    decide
  h _ (classify_flags_mem m v)

/-- C4: for every input, family flags are consistent with sub-flags: any
true K2 or Ender V3 sub-flag forces its family flag, and is_k1c forces
is_k1_family; by contraposition a false family flag forces all of its
sub-flags false. -/
theorem classify_family_consistency (m v : String) :
    familyConsistent (classify m v).flags = true :=
  have h : ∀ f ∈ allOutcomes, familyConsistent f = true := by decide
  h _ (classify_flags_mem m v)

/-- C5: whenever the model field matches the primary table, classification
is that entry and is independent of the modelVersion field: the primary
pass short-circuits the secondary pass. -/
theorem classify_primary_precedence (m v w : String)
    (e : String × Flags × String)
    (hp : primaryTable.find? (fun x => x.1 == m) = some e) :
    classify m v = ⟨e.2.1, e.2.2⟩ ∧ classify m v = classify m w := by
  unfold classify
  rw [hp]
  exact ⟨rfl, rfl⟩

/-- C5 witness: a K1C model string beats a modelVersion carrying the K2 Pro
code F012; the result is the K1C entry and equals the classification with
an empty modelVersion. -/
theorem classify_primary_precedence_witness :
    classify "K1C" "F012" =
      ⟨(primaryTable.get ⟨1, by decide⟩).2.1,
       (primaryTable.get ⟨1, by decide⟩).2.2⟩
  ∧ classify "K1C" "F012" = classify "K1C" "" :=
  classify_primary_precedence "K1C" "F012" ""
    (primaryTable.get ⟨1, by decide⟩) (by decide)

/-- C6: an empty model with a modelVersion containing the code F021 yields
the K2 base classification: is_k2_base, is_k2_family, box sensor, box
control and light all true (shown for the bare code and for a version
string embedding it). -/
theorem classify_f021_k2_base :
    (classify "" "F021").flags.is_k2_base = true
  ∧ (classify "" "F021").flags.is_k2_family = true
  ∧ (classify "" "F021").flags.has_box_sensor = true
  ∧ (classify "" "F021").flags.has_box_control = true
  ∧ (classify "" "F021").flags.has_light = true
  ∧ (classify "" "V1.0-F021-x").flags.is_k2_base = true := by
  decide

/-- C7: classification is a pure function of the model and modelVersion
fields: two snapshots agreeing on those two fields classify identically,
whatever their other fields are. -/
theorem classify_pure_two_fields (s1 s2 : TelemetrySnapshot)
    (hm : s1.model = s2.model) (hv : s1.modelVersion = s2.modelVersion) :
    classifySnap s1 = classifySnap s2 := by
  unfold classifySnap
  rw [hm, hv]

/-- C7 witness: two concrete snapshots differing only in their other fields
classify identically. -/
theorem classify_pure_two_fields_witness :
    classifySnap ⟨"K1C", "", [("state", "1")]⟩ = classifySnap ⟨"K1C", "", []⟩ :=
  classify_pure_two_fields _ _ rfl rfl

/-- C8: constructing a PrinterState with a model key absent from
MODEL_CONFIGS falls back to the k2plus configuration, and main_async's
camera-mode selection for such a key yields webrtc. -/
theorem unknown_model_key_falls_back (k : String) (sp : Bool)
    (sim : SimOptions) (tg : Targets) (t0 now : Float)
    (h : MODEL_CONFIGS.find? (fun e => e.1 == k) = none) :
    (mkPrinterState k sp sim tg t0 now).cfg = k2plusCfg
  ∧ camMode k = "webrtc" := by
  have hr : resolveCfg k = k2plusCfg := by
    unfold resolveCfg
    rw [h]
    rfl
  refine ⟨?_, ?_⟩
  · exact hr
  · unfold camMode
    rw [hr]
    rfl

/-- C8 witness: a concrete unknown key resolves to the k2plus configuration
and camera mode webrtc. -/
theorem unknown_model_key_falls_back_witness :
    fallbackState.cfg = k2plusCfg ∧ camMode "no-such-model" = "webrtc" :=
  unknown_model_key_falls_back "no-such-model" false defaultSimOptions
    defaultTargets 0.0 0.0 (by decide)

/-- C9: when the model configuration lacks the light capability, set_light
returns the state unchanged in every field; when it lacks box control,
set_box_temp returns the state unchanged in every field. -/
theorem capability_gated_setters (s : PState) (b : Bool) (t : Float) :
    (s.cfg.light = false → set_light s b = s)
  ∧ (s.cfg.box_control = false → set_box_temp s t = s) := by
  constructor
  · intro h
    unfold set_light
    rw [h]
    rfl
  · intro h
    unfold set_box_temp
    rw [h]
    rfl

/-- C9 witness: on the concrete Ender 3 V3 state (no light, no box
control), both setters are no-ops. -/
theorem capability_gated_setters_witness :
    set_light enderState true = enderState
  ∧ set_box_temp enderState 42.0 = enderState :=
  ⟨(capability_gated_setters enderState true 42.0).1 rfl,
   (capability_gated_setters enderState true 42.0).2 rfl⟩

/-- The ordered key list of a snapshot is the base keys followed by the
capability-conditional keys. -/
theorem snapshotKeys_eq (s : PState) (now : Float) :
    snapshotKeys s now = baseSnapshotKeys
      ++ (if s.cfg.box_sensor then
            ["boxTemp", "maxBoxTemp"]
              ++ (if s.cfg.box_control then ["targetBoxTemp"] else [])
          else [])
      ++ (if s.cfg.light then ["lightSw"] else []) := by
  unfold snapshotKeys snapshot baseSnapshotKeys
  cases s.cfg.box_sensor <;> cases s.cfg.box_control <;> cases s.cfg.light
    <;> rfl

/-- C10: a telemetry snapshot contains boxTemp iff the configuration has a
box sensor, targetBoxTemp iff it has both box sensor and box control, and
lightSw iff it has a light. -/
theorem snapshot_capability_keys (s : PState) (now : Float) :
    ("boxTemp" ∈ snapshotKeys s now ↔ s.cfg.box_sensor = true)
  ∧ ("targetBoxTemp" ∈ snapshotKeys s now ↔
      (s.cfg.box_sensor = true ∧ s.cfg.box_control = true))
  ∧ ("lightSw" ∈ snapshotKeys s now ↔ s.cfg.light = true) := by
  rw [snapshotKeys_eq]
  cases s.cfg.box_sensor <;> cases s.cfg.box_control <;> cases s.cfg.light
    <;> decide

/-- C10 witness: the fallback (k2plus-configured) state emits all three
conditional keys; its configuration indeed has every capability. -/
theorem snapshot_capability_keys_witness :
    "lightSw" ∈ snapshotKeys fallbackState 0.0
  ∧ "targetBoxTemp" ∈ snapshotKeys fallbackState 0.0 :=
  ⟨((snapshot_capability_keys fallbackState 0.0).2.2).mpr (by decide),
   ((snapshot_capability_keys fallbackState 0.0).2.1).mpr
     (by exact ⟨rfl, rfl⟩)⟩
